import Mathlib

/-!
Verification of the user_service RBAC core against its specification.

This file is a shallow embedding of the relevant parts of the Django
service (`apps/users/...`) into Lean 4:

* the `User` model with its overridden `save`/`delete` and the
  system-root-admin guard (`apps/users/models/user.py`);
* the role → permission tables and queries
  (`apps/users/permissions/definitions.py`);
* the RBAC middleware: public/auth-only path classification, the
  required-permission table (with Python dict duplicate keys collapsed to
  their last definition, as the interpreter does), resource-id
  extraction, resource-ownership and permission checks, and the overall
  request decision (`apps/users/middleware/rbac.py`);
* JWT and opaque-token credential resolution
  (`apps/users/authentication.py` and the middleware fallback chain);
* the Guardian startup self-heal (`apps/users/signals.py`,
  `apps/users/config.py`);
* the login and change-password endpoints
  (`apps/users/serializers/user.py`, `apps/users/views/user.py`).

Modelling conventions: machine state (the `users` table, DRF token
table, activity log) is passed explicitly; fallible Python code that
raises becomes `Except String`; Django's password hasher is a black-box
parameter `hash : String → String`, with `check_password raw stored`
modelled as `stored == hash raw`; timestamps are `Nat`/`Int` values
passed in as `now`.
-/

namespace UserService

/-! ### Data model: the `User` row (apps/users/models/user.py) -/

/-- One row of the `users` table.  `id` is the surrogate primary key
(Django `pk`); an unsaved object is modelled with `id = 0`. -/
structure User where
  id : Nat
  userid : String
  username : String
  email : String
  passwd : String
  role : String
  is_system_admin : Bool
  is_active : Bool
  is_staff : Bool
  is_superuser : Bool
  last_login : Option Nat
  created_at : Nat
  updated_at : Nat
deriving DecidableEq, Repr

/-- `User.is_system_root_admin` property: the pinned root-admin triple
(system-admin flag, surrogate id 1, identity `admin`). -/
def User.is_system_root_admin (u : User) : Bool :=
  u.is_system_admin && u.id == 1 && u.userid == "admin"

/-- `User.is_super_admin` property. -/
def User.is_super_admin (u : User) : Bool :=
  u.role == "super_admin" || u.is_superuser

/-- `User.is_admin` property (super admin or competition admin). -/
def User.is_admin (u : User) : Bool :=
  u.role == "super_admin" || u.role == "competition_admin" || u.is_superuser

/-- Columns that appear in the `update_fields` lists used by the source
(`passwd`, `updated_at`, `is_active`, `last_login`). -/
inductive UpdateField where
  | passwd
  | updated_at
  | is_active
  | last_login
deriving DecidableEq, Repr

/-- Write the listed columns of the in-memory object `u` over the stored
row `r`.  The `updated_at` column is `auto_now`, so it is written with
the current time when (and only when) it is among the update fields. -/
def writeFields (now : Nat) (u : User) (fs : List UpdateField) (r : User) : User :=
  fs.foldl
    (fun acc f =>
      match f with
      | .passwd => { acc with passwd := u.passwd }
      | .updated_at => { acc with updated_at := now }
      | .is_active => { acc with is_active := u.is_active }
      | .last_login => { acc with last_login := u.last_login })
    r

/-- `models.Model.save` (the framework part, below the guard): with
`update_fields` it updates exactly those columns of the existing row and
fails when no row matches; a full save updates every column of the
matching row (`updated_at` is `auto_now`), or inserts when absent
(`created_at` is `auto_now_add`). -/
def superSave (now : Nat) (store : List User) (u : User)
    (fields : Option (List UpdateField)) : Except String (List User) :=
  match fields with
  | some fs =>
      if store.any (fun r => r.id == u.id) then
        .ok (store.map (fun r => if r.id == u.id then writeFields now u fs r else r))
      else
        .error "Save with update_fields did not affect any rows."
  | none =>
      if store.any (fun r => r.id == u.id) then
        .ok (store.map (fun r => if r.id == u.id then { u with updated_at := now } else r))
      else
        .ok (store ++ [{ u with updated_at := now, created_at := now }])

/-- `User.save` (apps/users/models/user.py lines 180-202): the
root-admin mutation guard, then the framework save.  The guard runs only
when the in-memory object has a primary key and still satisfies
`is_system_root_admin`. -/
def User.save (now : Nat) (store : List User) (u : User)
    (fields : Option (List UpdateField)) : Except String (List User) :=
  if u.id != 0 && u.is_system_root_admin then
    match store.find? (fun r => r.id == u.id) with
    | some old =>
        if old.userid != u.userid then .error "系统根管理员的userid不能修改"
        else if old.role != u.role then .error "系统根管理员的角色不能修改"
        else if u.id != 1 then .error "系统根管理员的ID必须为1"
        else superSave now store u fields
    | none =>
        if u.id != 1 then .error "系统根管理员的ID必须为1"
        else if u.userid != "admin" then .error "系统根管理器的userid必须为admin"
        else if u.role != "super_admin" then .error "系统根管理器的角色必须为super_admin"
        else superSave now store u fields
  else superSave now store u fields

/-- `User.delete` (lines 204-208): the root admin cannot be deleted;
otherwise the row is removed. -/
def User.delete (store : List User) (u : User) : Except String (List User) :=
  if u.is_system_root_admin then .error "系统根管理员不能被删除"
  else .ok (store.filter (fun r => !(r.id == u.id)))

/-- `User.check_password`, with the hasher as a black-box parameter. -/
def User.check_password (hash : String → String) (u : User) (raw : String) : Bool :=
  u.passwd == hash raw

/-- `User.set_password` (lines 85-93): hash the new password, then save
only the `passwd` column for the system root admin and the `passwd` and
`updated_at` columns for everyone else. -/
def User.set_password (hash : String → String) (now : Nat) (store : List User)
    (u : User) (raw : String) : Except String (List User × User) :=
  let u' := { u with passwd := hash raw }
  if u'.is_system_root_admin then
    (User.save now store u' (some [.passwd])).map (fun s => (s, u'))
  else
    (User.save now store u' (some [.passwd, .updated_at])).map (fun s => (s, u'))

/-- `User.deactivate` (lines 146-153): the root admin cannot be
deactivated; otherwise clear `is_active` and save it with
`updated_at`. -/
def User.deactivate (now : Nat) (store : List User) (u : User) :
    Except String (List User × User) :=
  if u.is_system_root_admin then .error "系统根管理员不能被停用"
  else
    let u' := { u with is_active := false }
    (User.save now store u' (some [.is_active, .updated_at])).map (fun s => (s, u'))

/-- `User.activate` (lines 155-158). -/
def User.activate (now : Nat) (store : List User) (u : User) :
    Except String (List User × User) :=
  let u' := { u with is_active := true }
  (User.save now store u' (some [.is_active, .updated_at])).map (fun s => (s, u'))

/-- `User.update_last_login_time` (lines 141-144). -/
def User.update_last_login_time (now : Nat) (store : List User) (u : User) :
    Except String (List User × User) :=
  let u' := { u with last_login := some now }
  (User.save now store u' (some [.last_login])).map (fun s => (s, u'))

/-! ### Permission catalog and role-permission map
(apps/users/permissions/definitions.py) -/

/-- All values of the `Permission` enum, in declaration order. -/
def allPermissionValues : List String :=
  [ "user:create", "user:read", "user:update", "user:delete", "user:list",
    "activity:read", "activity:list",
    "role:update", "role:read",
    "system:config", "system:monitor",
    "competition:create", "competition:read", "competition:update",
    "competition:delete", "competition:list", "competition:manage",
    "competition:review", "competition:approve", "competition:reject",
    "team:create", "team:read", "team:update", "team:delete", "team:list",
    "team:manage",
    "member:add", "member:remove", "member:approve" ]

/-- `RolePermissions.SUPER_ADMIN_PERMISSIONS`: the derived union of every
permission value (`{perm.value for perm in Permission}`). -/
def SUPER_ADMIN_PERMISSIONS : List String := allPermissionValues

/-- `RolePermissions.COMPETITION_ADMIN_PERMISSIONS`. -/
def COMPETITION_ADMIN_PERMISSIONS : List String :=
  [ "user:read", "activity:read", "role:read",
    "competition:create", "competition:read", "competition:update",
    "competition:delete", "competition:list", "competition:manage",
    "competition:review", "competition:approve", "competition:reject",
    "team:create", "team:read", "team:update", "team:delete", "team:list",
    "team:manage",
    "member:add", "member:remove", "member:approve" ]

/-- `RolePermissions.TEACHER_PERMISSIONS`. -/
def TEACHER_PERMISSIONS : List String :=
  [ "user:read", "activity:read", "role:read",
    "competition:read", "competition:list", "competition:create",
    "competition:update",
    "team:read", "team:list", "team:create", "team:update",
    "member:add", "member:remove" ]

/-- `RolePermissions.STUDENT_PERMISSIONS`. -/
def STUDENT_PERMISSIONS : List String :=
  [ "user:read", "activity:read",
    "competition:read", "competition:list",
    "team:read", "team:list" ]

/-- `get_role_permissions`: `ROLE_PERMISSIONS_MAP.get(role, set())` —
unknown roles get the empty set (fails closed). -/
def get_role_permissions (role : String) : List String :=
  if role = "super_admin" then SUPER_ADMIN_PERMISSIONS
  else if role = "competition_admin" then COMPETITION_ADMIN_PERMISSIONS
  else if role = "teacher" then TEACHER_PERMISSIONS
  else if role = "student" then STUDENT_PERMISSIONS
  else []

/-- `has_permission(user_role, required_permission)`. -/
def has_permission (user_role : String) (required_permission : String) : Bool :=
  (get_role_permissions user_role).contains required_permission

/-- `has_any_permission(user_role, required_permissions)`. -/
def has_any_permission (user_role : String) (required_permissions : List String) : Bool :=
  required_permissions.any (fun p => (get_role_permissions user_role).contains p)

/-- `has_all_permissions(user_role, required_permissions)`. -/
def has_all_permissions (user_role : String) (required_permissions : List String) : Bool :=
  required_permissions.all (fun p => (get_role_permissions user_role).contains p)

/-! ### String helpers mirroring the Python string operations used by
the middleware -/

/-- Python `s.strip('/')`: drop leading and trailing slashes. -/
def stripSlashes (s : String) : String :=
  String.mk (((s.toList.dropWhile (· == '/')).reverse.dropWhile (· == '/')).reverse)

/-- Python `s.rstrip('/')`: drop trailing slashes. -/
def rstripSlashes (s : String) : String :=
  String.mk ((s.toList.reverse.dropWhile (· == '/')).reverse)

/-- Python `s.isdigit()`: nonempty and all digit characters. -/
def isDigits (s : String) : Bool :=
  !s.toList.isEmpty && s.toList.all (·.isDigit)

/-- Whether the character list `l` begins with `p`. -/
def listStartsWith : List Char → List Char → Bool
  | _, [] => true
  | [], _ :: _ => false
  | a :: as, b :: bs => a == b && listStartsWith as bs

/-- Helper for substring search: whether `pat` occurs in the list. -/
def containsSubAux (pat : List Char) : List Char → Bool
  | [] => pat.isEmpty
  | c :: rest => listStartsWith (c :: rest) pat || containsSubAux pat rest

/-- Python `pat in s`: substring containment. -/
def containsSub (s pat : String) : Bool :=
  containsSubAux pat.toList s.toList

/-- Python `s.startswith(p)`. -/
def strStartsWith (s p : String) : Bool :=
  listStartsWith s.toList p.toList

/-- Python `s.endswith(p)`. -/
def strEndsWith (s p : String) : Bool :=
  listStartsWith s.toList.reverse p.toList.reverse

/-- ASCII upper-casing of one character. -/
def charUpper (c : Char) : Char :=
  if 'a' ≤ c && c ≤ 'z' then Char.ofNat (c.toNat - 32) else c

/-- Python `s.upper()` (ASCII). -/
def strToUpper (s : String) : String :=
  String.mk (s.toList.map charUpper)

/-- Python `str.split(sep)` for a one-character separator: splitting the
empty string gives `[""]`, and separators at the ends give empty
fields. -/
def splitOnChar (sep : Char) : List Char → List (List Char)
  | [] => [[]]
  | c :: rest =>
      let r := splitOnChar sep rest
      if c == sep then [] :: r
      else
        match r with
        | h :: t => (c :: h) :: t
        | [] => [[c]]

/-- Python `s.split('/')`. -/
def splitSlash (s : String) : List String :=
  (splitOnChar '/' s.toList).map String.mk

/-! ### RBAC middleware (apps/users/middleware/rbac.py) -/

/-- `RBACMiddleware.PUBLIC_PATHS`. -/
def PUBLIC_PATHS : List String :=
  [ "/api/v1/auth/login/", "/api/v1/auth/logout/", "/api/v1/auth/refresh/",
    "/api/health/", "/api/status/", "/api/docs/", "/api/redoc/", "/admin/" ]

/-- `RBACMiddleware.AUTH_ONLY_PATHS`. -/
def AUTH_ONLY_PATHS : List String :=
  [ "/api/v1/auth/change-password/", "/api/v1/users/me/", "/api/v1/users/deactivate/" ]

/-- Exact-prefix allow-list for public paths. -/
def publicPathStarts : List String :=
  [ "/static/", "/media/", "/api/schema/" ]

/-- `RBACMiddleware.is_public_path`. -/
def is_public_path (path : String) : Bool :=
  PUBLIC_PATHS.contains path || publicPathStarts.any (fun p => strStartsWith path p)

/-- `RBACMiddleware.is_auth_only_path`. -/
def is_auth_only_path (path : String) : Bool :=
  AUTH_ONLY_PATHS.contains path ||
    (strStartsWith path "/api/v1/users/" && strEndsWith path "/" &&
      (let p := rstripSlashes path
       strEndsWith p "/me" || strEndsWith p "/deactivate"))

/-- `RBACMiddleware.path_matches`. -/
def path_matches (path pat : String) : Bool :=
  if strEndsWith pat "/" then strStartsWith path pat
  else path == pat || strStartsWith path (pat ++ "/")

/-- The middleware's `permission_map` dict after Python's duplicate-key
collapse: a later literal entry for the same `(path, method)` key
overwrites the earlier value while keeping the first insertion position. -/
def permissionMap : List ((String × String) × List String) :=
  [ (("/api/v1/users", "GET"), ["user:list"]),
    (("/api/v1/users", "POST"), ["user:create"]),
    (("/api/v1/users/", "GET"), ["user:read"]),
    (("/api/v1/users/", "POST"), []),
    (("/api/v1/users/", "PUT"), ["user:update"]),
    (("/api/v1/users/", "PATCH"), []),
    (("/api/v1/users/", "DELETE"), ["user:delete"]),
    (("/api/v1/activities", "GET"), ["activity:list"]),
    (("/api/v1/activities/", "GET"), ["activity:read"]) ]

/-- `RBACMiddleware.get_required_permissions`. -/
def get_required_permissions (path0 method0 : String) : List String :=
  let path := rstripSlashes path0
  let method := strToUpper method0
  if strStartsWith path "/api/v1/users/" && method == "GET" &&
      decide ((splitSlash (stripSlashes path)).length ≥ 4) then
    ["user:read"]
  else
    match permissionMap.find? (fun e => e.1.1 == path && e.1.2 == method) with
    | some e => e.2
    | none =>
        match permissionMap.find? (fun e => method == e.1.2 && path_matches path e.1.1) with
        | some e => e.2
        | none => if method == "GET" then ["user:read"] else ["user:update"]

/-- `RBACMiddleware.extract_resource_id`. -/
def extract_resource_id (path : String) : Option String :=
  let parts := splitSlash (stripSlashes path)
  if parts.length ≥ 3 && isDigits (parts.getD 1 "") then some (parts.getD 1 "")
  else none

/-- `RBACMiddleware.check_user_permissions`: super admins bypass, others
need any of the required permissions. -/
def check_user_permissions (u : User) (required : List String) : Bool :=
  if u.is_super_admin then true
  else required.any (fun p => has_permission u.role p)

/-- `RBACMiddleware.check_resource_ownership`: safe methods pass; paths
without an extractable resource id pass; otherwise the path must contain
`/api/users/` and the id must match the caller's surrogate id or
identity. -/
def check_resource_ownership (u : User) (path method : String) : Bool :=
  if method == "GET" || method == "HEAD" || method == "OPTIONS" then true
  else
    match extract_resource_id path with
    | none => true
    | some rid =>
        containsSub path "/api/users/" && (toString u.id == rid || u.userid == rid)

/-- Outcome of `RBACMiddleware.process_request`: pass the request
through, or answer it with an HTTP status and a machine-readable code. -/
inductive Decision where
  | allow
  | deny (statusCode : Nat) (code : String)
deriving DecidableEq, Repr

/-- `RBACMiddleware.process_request` after credential resolution: the
authenticated user (if any) plus path and method decide the outcome. -/
def processRequestWith (u? : Option User) (path method : String) : Decision :=
  if is_public_path path then .allow
  else
    match u? with
    | none => .deny 401 "AUTHENTICATION_REQUIRED"
    | some u =>
        if is_auth_only_path path then
          if check_resource_ownership u path method then .allow
          else .deny 403 "RESOURCE_OWNERSHIP_REQUIRED"
        else
          let required := get_required_permissions path method
          if !check_user_permissions u required then
            .deny 403 "INSUFFICIENT_PERMISSIONS"
          else if !check_resource_ownership u path method then
            .deny 403 "RESOURCE_OWNERSHIP_REQUIRED"
          else .allow

/-! ### Credential resolution (apps/users/authentication.py and
RBACMiddleware.authenticate_user) -/

/-- Payload of a signed token, bit-for-bit the dict built by
`JWTAuthentication.generate_token` for access tokens: `user_id`,
`userid`, `role`, `exp`, `iat`, `type`. -/
structure JwtPayload where
  user_id : Nat
  userid : String
  role : String
  exp : Option Int
  iat : Int
  typ : String
deriving DecidableEq, Repr

/-- A token string: a payload together with its signature. -/
structure SignedToken where
  payload : JwtPayload
  sig : String
deriving DecidableEq, Repr

/-- Model of the HMAC signature binding a payload to the server secret. -/
def mkSig (secret : String) (p : JwtPayload) : String :=
  secret ++ "." ++ toString p.user_id ++ "." ++ p.userid ++ "." ++ p.role ++ "." ++
    (match p.exp with
     | some e => "exp" ++ toString e
     | none => "noexp") ++ "." ++ toString p.iat ++ "." ++ p.typ

/-- Failures of `jwt.decode`. -/
inductive JwtError where
  | expired
  | invalid
deriving DecidableEq, Repr

/-- `jwt.decode(token, secret, algorithms=[...])`: verify the signature,
then reject a present `exp` that lies in the past
(`ExpiredSignatureError`). -/
def jwtDecode (secret : String) (now : Int) (t : SignedToken) :
    Except JwtError JwtPayload :=
  if t.sig != mkSig secret t.payload then .error .invalid
  else
    match t.payload.exp with
    | some e => if e < now then .error .expired else .ok t.payload
    | none => .ok t.payload

/-- The `Authorization` header, classified the way the resolvers parse
it: absent, `Bearer <signed token>`, `Token <opaque key>`, or some other
scheme. -/
inductive AuthHeader where
  | missing
  | bearer (t : SignedToken)
  | tokenKey (key : String)
  | other (raw : String)
deriving DecidableEq, Repr

/-- `JWTAuthentication.is_token_expired`: a missing `exp` counts as
expired, otherwise compare against the current time. -/
def is_token_expired (now : Int) (p : JwtPayload) : Bool :=
  match p.exp with
  | none => true
  | some e => e < now

/-- `JWTAuthentication.authenticate` (apps/users/authentication.py lines
22-62): `.ok none` when no Bearer credential is present (the view layer
moves on), `.error` for `AuthenticationFailed`, `.ok (some (user,
token))` on success.  Only active users resolve. -/
def jwtAuthenticate (secret : String) (now : Int) (store : List User)
    (h : AuthHeader) : Except String (Option (User × SignedToken)) :=
  match h with
  | .bearer t =>
      match jwtDecode secret now t with
      | .error .expired => .error "令牌已过期"
      | .error .invalid => .error "无效的令牌"
      | .ok payload =>
          if is_token_expired now payload then .error "令牌已过期"
          else if payload.user_id == 0 then .error "无效的令牌"
          else
            match store.find? (fun u => u.id == payload.user_id && u.is_active) with
            | some u => .ok (some (u, t))
            | none => .error "用户不存在"
  | _ => .ok none

/-- The DRF token table: opaque key bound to a user id (one key per
user). -/
def TokenTable := List (String × Nat)

/-- DRF `TokenAuthentication.authenticate`: `.ok none` when the header
does not use the `Token` keyword; an unknown key or an inactive bound
user raises `AuthenticationFailed`. -/
def drfTokenAuthenticate (store : List User) (tokens : List (String × Nat))
    (h : AuthHeader) : Except String (Option User) :=
  match h with
  | .tokenKey k =>
      match tokens.find? (fun e => e.1 == k) with
      | none => .error "Invalid token."
      | some e =>
          match store.find? (fun u => u.id == e.2) with
          | none => .error "Invalid token."
          | some u =>
              if u.is_active then .ok (some u)
              else .error "User inactive or deleted."
  | _ => .ok none

/-- The opaque-token fallback of `RBACMiddleware.authenticate_user`
(rbac.py lines 169-187): DRF token auth, then the direct header lookup;
any `AuthenticationFailed` yields no principal. -/
def opaqueFallback (store : List User) (tokens : List (String × Nat))
    (h : AuthHeader) : Option User :=
  match drfTokenAuthenticate store tokens h with
  | .ok (some u) => some u
  | .ok none =>
      match h with
      | .tokenKey k =>
          (tokens.find? (fun e => e.1 == k)).bind
            (fun e => store.find? (fun u => u.id == e.2))
      | _ => none
  | .error _ => none

/-- `RBACMiddleware.authenticate_user` (rbac.py lines 158-187): try the
signed-token path first; fall back to the opaque-key path when it yields
no principal or raises. -/
def authenticate_user (secret : String) (now : Int) (store : List User)
    (tokens : List (String × Nat)) (h : AuthHeader) : Option User :=
  match jwtAuthenticate secret now store h with
  | .ok (some (u, _)) => some u
  | .ok none => opaqueFallback store tokens h
  | .error _ => opaqueFallback store tokens h

/-- `RBACMiddleware.process_request` end to end: resolve the principal,
then decide. -/
def process_request (secret : String) (now : Int) (store : List User)
    (tokens : List (String × Nat)) (h : AuthHeader) (path method : String) :
    Decision :=
  processRequestWith (authenticate_user secret now store tokens h) path method

/-! ### System root admin Guardian (apps/users/config.py,
apps/users/signals.py) -/

/-- `SystemConfig.get_admin_password`: environment override first, then
the settings value, then the documented default.  Empty strings are
falsy in Python, hence skipped. -/
def get_admin_password (env cfg : Option String) : String :=
  let e := env.getD ""
  if e != "" then e
  else
    let c := cfg.getD ""
    if c != "" then c
    else "admin123"

/-- `_create_system_admin` (signals.py lines 57-90): insert the pinned
record (unique-key conflicts surface as an integrity error), then set
its password from the configured source. -/
def create_system_admin (hash : String → String) (env cfg : Option String)
    (now : Nat) (store : List User) : Except String (List User) :=
  let password := get_admin_password env cfg
  if store.any (fun u => u.id == 1 || u.userid == "admin") then
    .error "IntegrityError"
  else
    let admin : User :=
      { id := 1, userid := "admin", username := "admin",
        email := "admin@localhost", passwd := "", role := "super_admin",
        is_system_admin := true, is_active := true, is_staff := true,
        is_superuser := true, last_login := none,
        created_at := now, updated_at := now }
    let store1 := store ++ [admin]
    match User.set_password hash now store1 admin password with
    | .error e => .error e
    | .ok (store2, admin') => User.save now store2 admin' (some [.passwd])

/-- `_ensure_system_admin_exists` (signals.py lines 31-53): when the
pinned record exists, rotate its stored hash only if it no longer
verifies against the configured password; otherwise create it. -/
def ensure_system_admin (hash : String → String) (env cfg : Option String)
    (now : Nat) (store : List User) : Except String (List User) :=
  match store.find? (fun u => u.id == 1 && u.userid == "admin" && u.is_system_admin) with
  | some admin =>
      let config_password := get_admin_password env cfg
      if !User.check_password hash admin config_password then
        match User.set_password hash now store admin config_password with
        | .error e => .error e
        | .ok (store', admin') => User.save now store' admin' none
      else .ok store
  | none => create_system_admin hash env cfg now store

/-- Repeated runs of the startup self-heal check. -/
def ensure_iter (hash : String → String) (env cfg : Option String) (now : Nat) :
    Nat → List User → Except String (List User)
  | 0, s => .ok s
  | n + 1, s =>
      match ensure_system_admin hash env cfg now s with
      | .ok s' => ensure_iter hash env cfg now n s'
      | .error e => .error e

/-! ### Login and change-password endpoints
(apps/users/serializers/user.py, apps/users/views/user.py) -/

/-- One audit row of `user_activities`. -/
structure ActivityRecord where
  user_id : Nat
  action : String
  ip : String
  user_agent : String
  success : Bool
deriving DecidableEq, Repr

/-- The persistent state the endpoints touch: the `users` table, the DRF
token table, and the activity log. -/
structure ServiceState where
  users : List User
  tokens : List (String × Nat)
  activities : List ActivityRecord
deriving DecidableEq, Repr

/-- `UserLoginSerializer.validate` (serializers/user.py lines 113-133):
existence, then password, then the active flag. -/
def login_validate (hash : String → String) (store : List User)
    (userid password : String) : Except String User :=
  if userid == "" || password == "" then .error "必须提供用户ID和密码"
  else
    match store.find? (fun u => u.userid == userid) with
    | none => .error "用户不存在"
    | some u =>
        if !User.check_password hash u password then .error "密码错误"
        else if !u.is_active then .error "用户账户已被停用"
        else .ok u

/-- Shape of the login response: HTTP status, error message (serializer
errors surface as DRF 400 validation responses), and the opaque token on
success. -/
structure LoginResponse where
  statusCode : Nat
  message : String
  token : Option String
deriving DecidableEq, Repr

/-- `LoginView.post` (views/user.py lines 249-274): validate, get or
create the opaque token, stamp `last_login`, append the audit record.
`genKey` models DRF's token-key generation. -/
def login_post (hash : String → String) (genKey : Nat → String) (now : Nat)
    (st : ServiceState) (userid password ip ua : String) :
    LoginResponse × ServiceState :=
  match login_validate hash st.users userid password with
  | .error msg => ({ statusCode := 400, message := msg, token := none }, st)
  | .ok u =>
      let (key, tokens') :=
        match st.tokens.find? (fun e => e.2 == u.id) with
        | some e => (e.1, st.tokens)
        | none => (genKey u.id, (genKey u.id, u.id) :: st.tokens)
      match User.update_last_login_time now st.users u with
      | .error e => ({ statusCode := 500, message := e, token := none }, st)
      | .ok (users', u') =>
          let act : ActivityRecord :=
            { user_id := u'.id, action := "login", ip := ip,
              user_agent := ua, success := true }
          ({ statusCode := 200, message := "", token := some key },
           { users := users', tokens := tokens',
             activities := st.activities ++ [act] })

/-- `validate_password_strength` (apps/common/utils/validators.py lines
73-97), as a boolean. -/
def password_strength_ok (p : String) : Bool :=
  decide (p.length ≥ 8) && decide (p.length ≤ 128) &&
    p.toList.any (fun c => c.isLower) && p.toList.any (fun c => c.isUpper) &&
    p.toList.any (fun c => c.isDigit) &&
    p.toList.any (fun c => "!@#$%^&*(),.?\":\x7b\x7d|<>".toList.contains c)

/-- `ChangePasswordSerializer` validation: required fields, minimum
length, strength, and confirmation match. -/
def change_password_valid (current newPw newConfirm : String) : Bool :=
  current != "" && decide (newPw.length ≥ 6) && password_strength_ok newPw &&
    newConfirm != "" && newPw == newConfirm

/-- `ChangePasswordView.post` (views/user.py lines 388-415) under the
`handle_system_admin_protection` decorator: the system root admin is
rejected with the dedicated protection code before anything is written;
otherwise validate, set the password (which saves), do the view's extra
full save, and append the audit record.  The result pairs (HTTP status,
machine code) with the state after the call. -/
def change_password (hash : String → String) (now : Nat) (st : ServiceState)
    (reqUser : User) (current newPw newConfirm ip ua : String) :
    (Nat × String) × ServiceState :=
  if reqUser.is_system_root_admin then
    ((403, "SYSTEM_ADMIN_PROTECTION"), st)
  else if !change_password_valid current newPw newConfirm then
    ((400, "VALIDATION_ERROR"), st)
  else
    match User.set_password hash now st.users reqUser newPw with
    | .error e => ((500, e), st)
    | .ok (users1, u1) =>
        match User.save now users1 u1 none with
        | .error e => ((500, e), st)
        | .ok users2 =>
            let act : ActivityRecord :=
              { user_id := u1.id, action := "change_password", ip := ip,
                user_agent := ua, success := true }
            ((204, ""),
             { st with users := users2, activities := st.activities ++ [act] })

/-! ### Sample records used by concrete witnesses and counterexamples -/

/-- Test model of the password hasher. -/
def hashModel : String → String := fun s => "H:" ++ s

/-- Test model of the DRF token-key generator. -/
def genKeyModel : Nat → String := fun n => "k" ++ toString n

/-- The bootstrapped system root admin row, password in sync with the
default configured password. -/
def rootAdminRec : User :=
  { id := 1, userid := "admin", username := "admin", email := "admin@localhost",
    passwd := "H:admin123", role := "super_admin", is_system_admin := true,
    is_active := true, is_staff := true, is_superuser := true,
    last_login := none, created_at := 0, updated_at := 0 }

/-- An ordinary student principal with surrogate id 7. -/
def studentRec : User :=
  { id := 7, userid := "stu7", username := "stu7", email := "stu7@x.com",
    passwd := "H:pw", role := "student", is_system_admin := false,
    is_active := true, is_staff := false, is_superuser := false,
    last_login := none, created_at := 0, updated_at := 0 }

/-- An ordinary super-admin principal with surrogate id 9. -/
def superAdminRec : User :=
  { studentRec with
    id := 9, userid := "boss", username := "boss",
    email := "boss@x.com", role := "super_admin" }

/-! ### Claim theorems -/

/-- C1: the claim says every save of the root-admin record that changes
identity, role, or surrogate id raises before reaching storage.  The
code violates this: its guard keys on the modified in-memory object, so
changing `userid` away from `admin` falsifies `is_system_root_admin` and
skips the guard entirely — the rename is written to storage.  A role
change (with the other pins intact) is still caught, which shows the
guard's intent.  This theorem evaluates `User.save` at the failing
input: the rename is accepted and persisted, while the role change on
the same stored state errors. -/
theorem c1_root_admin_identity_change_bypasses_save_guard :
    User.save 100 [rootAdminRec] { rootAdminRec with userid := "hacker" } none =
      .ok [{ rootAdminRec with userid := "hacker", updated_at := 100 }] ∧
    User.save 100 [rootAdminRec] { rootAdminRec with id := 2 } none =
      .ok [rootAdminRec, { rootAdminRec with id := 2, created_at := 100, updated_at := 100 }] ∧
    User.save 100 [rootAdminRec] { rootAdminRec with role := "student" } none =
      .error "系统根管理员的角色不能修改" :=
  ⟨rfl, rfl, rfl⟩

/-- C4: `has_permission(R, P)` is exactly membership of `P` in
`permissionsOf(R)`, and the super-admin permission set (the derived
union of the whole catalog) contains every other role's set. -/
theorem c4_role_permission_map_algebra :
    (∀ r p, has_permission r p = true ↔ p ∈ get_role_permissions r) ∧
    (∀ r, r ≠ "super_admin" →
      ∀ p ∈ get_role_permissions r, p ∈ get_role_permissions "super_admin") := by
  constructor
  · intro r p
    simp [has_permission, List.contains, List.elem_iff]
  · intro r hr p hp
    have hsup : get_role_permissions "super_admin" = SUPER_ADMIN_PERMISSIONS := rfl
    rw [hsup]
    unfold get_role_permissions at hp
    rw [if_neg hr] at hp
    by_cases h1 : r = "competition_admin"
    · rw [if_pos h1] at hp
      have hsub : ∀ x ∈ COMPETITION_ADMIN_PERMISSIONS, x ∈ SUPER_ADMIN_PERMISSIONS := by decide
      exact hsub p hp
    · rw [if_neg h1] at hp
      by_cases h2 : r = "teacher"
      · rw [if_pos h2] at hp
        have hsub : ∀ x ∈ TEACHER_PERMISSIONS, x ∈ SUPER_ADMIN_PERMISSIONS := by decide
        exact hsub p hp
      · rw [if_neg h2] at hp
        by_cases h3 : r = "student"
        · rw [if_pos h3] at hp
          have hsub : ∀ x ∈ STUDENT_PERMISSIONS, x ∈ SUPER_ADMIN_PERMISSIONS := by decide
          exact hsub p hp
        · rw [if_neg h3] at hp
          exact absurd hp (List.not_mem_nil p)

/-- C4 witness: the equivalence and the superset property at concrete
role and permission values. -/
theorem c4_role_permission_map_algebra_witness :
    (has_permission "student" "user:read" = true ↔
      "user:read" ∈ get_role_permissions "student") ∧
    "team:list" ∈ get_role_permissions "super_admin" :=
  ⟨c4_role_permission_map_algebra.1 "student" "user:read",
   c4_role_permission_map_algebra.2 "teacher" (by decide) "team:list" (by decide)⟩

/-- C6: deleting or deactivating the system root admin always raises the
guard error before any write; the operations return the error without
producing a new store, so the stored record stays present and active. -/
theorem c6_root_admin_delete_deactivate_rejected (now : Nat) (store : List User)
    (u : User) (h : u.is_system_root_admin = true) :
    User.deactivate now store u = .error "系统根管理员不能被停用" ∧
    User.delete store u = .error "系统根管理员不能被删除" := by
  constructor
  · unfold User.deactivate
    rw [h]
    rfl
  · unfold User.delete
    rw [h]
    rfl

/-- C6 witness: the concrete root-admin record. -/
theorem c6_root_admin_delete_deactivate_rejected_witness :
    User.deactivate 100 [rootAdminRec] rootAdminRec = .error "系统根管理员不能被停用" ∧
    User.delete [rootAdminRec] rootAdminRec = .error "系统根管理员不能被删除" :=
  c6_root_admin_delete_deactivate_rejected 100 [rootAdminRec] rootAdminRec rfl

/-- C7: the authenticated change-password endpoint detects the system
root admin before validation and before any write, answering 403 with
the dedicated protection code and leaving the whole state — in
particular the stored password hash — unchanged. -/
theorem c7_change_password_root_admin_protected (hash : String → String)
    (now : Nat) (st : ServiceState) (reqUser : User)
    (current newPw newConfirm ip ua : String)
    (h : reqUser.is_system_root_admin = true) :
    change_password hash now st reqUser current newPw newConfirm ip ua =
      ((403, "SYSTEM_ADMIN_PROTECTION"), st) := by
  unfold change_password
  rw [h]
  rfl

/-- C7 witness: the concrete root-admin principal. -/
theorem c7_change_password_root_admin_protected_witness :
    change_password hashModel 100
      { users := [rootAdminRec], tokens := [], activities := [] }
      rootAdminRec "old" "Newpass1!" "Newpass1!" "ip" "ua" =
      ((403, "SYSTEM_ADMIN_PROTECTION"),
       { users := [rootAdminRec], tokens := [], activities := [] }) :=
  c7_change_password_root_admin_protected hashModel 100
    { users := [rootAdminRec], tokens := [], activities := [] }
    rootAdminRec "old" "Newpass1!" "Newpass1!" "ip" "ua" rfl

/-- Payload of an expired access token for user 7. -/
def expiredPayload : JwtPayload :=
  { user_id := 7, userid := "stu7", role := "student", exp := some 5,
    iat := 0, typ := "access" }

/-- A validly signed but expired token. -/
def expiredTok : SignedToken :=
  { payload := expiredPayload, sig := mkSig "sec" expiredPayload }

/-- Payload of a live access token for user 7. -/
def livePayload : JwtPayload :=
  { user_id := 7, userid := "stu7", role := "student", exp := some 100,
    iat := 0, typ := "access" }

/-- A validly signed, unexpired token. -/
def liveTok : SignedToken :=
  { payload := livePayload, sig := mkSig "sec" livePayload }

/-- C3: a validly signed bearer token whose expiry lies in the past is
rejected by `JWTAuthentication.authenticate` with the token-expired
failure, and the middleware's credential resolution never produces a
principal from it (the opaque fallback cannot fire on a Bearer
header). -/
theorem c3_expired_token_never_authenticates (secret : String) (now : Int)
    (store : List User) (tokens : List (String × Nat)) (t : SignedToken) (e : Int)
    (hsig : t.sig = mkSig secret t.payload)
    (hexp : t.payload.exp = some e) (hlt : e < now) :
    jwtAuthenticate secret now store (.bearer t) = .error "令牌已过期" ∧
    authenticate_user secret now store tokens (.bearer t) = none := by
  have hdec : jwtDecode secret now t = .error .expired := by
    unfold jwtDecode
    rw [hsig]
    simp [hexp, hlt]
  have hja : jwtAuthenticate secret now store (.bearer t) = .error "令牌已过期" := by
    simp only [jwtAuthenticate]
    rw [hdec]
  refine ⟨hja, ?_⟩
  unfold authenticate_user
  rw [hja]
  rfl

/-- C3 witness: the concrete expired token against the concrete store. -/
theorem c3_expired_token_never_authenticates_witness :
    jwtAuthenticate "sec" 10 [studentRec] (.bearer expiredTok) = .error "令牌已过期" ∧
    authenticate_user "sec" 10 [studentRec] [("k7", 7)] (.bearer expiredTok) = none :=
  c3_expired_token_never_authenticates "sec" 10 [studentRec] [("k7", 7)]
    expiredTok 5 rfl rfl (by decide)

/-- C5: the middleware's credential resolution is deterministic and
ordered — whenever the signed-token path yields a principal, that
principal is the result (whatever the opaque-token table holds), and the
opaque-key fallback is consulted exactly when the signed-token path
yields no principal (no Bearer credential, or a failure). -/
theorem c5_signed_token_path_tried_first (secret : String) (now : Int)
    (store : List User) (tokens : List (String × Nat)) (h : AuthHeader) :
    (∀ u t, jwtAuthenticate secret now store h = .ok (some (u, t)) →
      authenticate_user secret now store tokens h = some u) ∧
    (jwtAuthenticate secret now store h = .ok none →
      authenticate_user secret now store tokens h = opaqueFallback store tokens h) ∧
    (∀ e, jwtAuthenticate secret now store h = .error e →
      authenticate_user secret now store tokens h = opaqueFallback store tokens h) := by
  refine ⟨fun u t hj => ?_, fun hj => ?_, fun e hj => ?_⟩ <;>
    · unfold authenticate_user
      rw [hj]

/-- C5 witness: a live signed token for user 7 resolves to user 7
through the signed-token path, with a populated opaque-token table
present. -/
theorem c5_signed_token_path_tried_first_witness :
    authenticate_user "sec" 10 [studentRec] [("k7", 7)] (.bearer liveTok) =
      some studentRec :=
  (c5_signed_token_path_tried_first "sec" 10 [studentRec] [("k7", 7)]
    (.bearer liveTok)).1 studentRec liveTok rfl

/-- C8: the Guardian self-heal is idempotent — when the root admin
exists and its stored hash already verifies against the configured
password source, one run writes nothing, and any number of successive
runs leaves the stored state exactly as a single run does. -/
theorem c8_self_heal_idempotent (hash : String → String) (env cfg : Option String)
    (now : Nat) (store : List User) (admin : User)
    (hfind : store.find?
      (fun u => u.id == 1 && u.userid == "admin" && u.is_system_admin) = some admin)
    (hpw : User.check_password hash admin (get_admin_password env cfg) = true) :
    ensure_system_admin hash env cfg now store = .ok store ∧
    ∀ n, ensure_iter hash env cfg now n store = .ok store := by
  have h1 : ensure_system_admin hash env cfg now store = .ok store := by
    unfold ensure_system_admin
    rw [hfind]
    simp [hpw]
  refine ⟨h1, fun n => ?_⟩
  induction n with
  | zero => rfl
  | succ m ih =>
      unfold ensure_iter
      rw [h1]
      exact ih

/-- C8 witness: a store holding the in-sync root admin, with the default
configured password; three successive runs leave it untouched. -/
theorem c8_self_heal_idempotent_witness :
    ensure_system_admin hashModel none none 100 [rootAdminRec] = .ok [rootAdminRec] ∧
    ensure_iter hashModel none none 100 3 [rootAdminRec] = .ok [rootAdminRec] :=
  ⟨(c8_self_heal_idempotent hashModel none none 100 [rootAdminRec] rootAdminRec rfl rfl).1,
   (c8_self_heal_idempotent hashModel none none 100 [rootAdminRec] rootAdminRec rfl rfl).2 3⟩

/-- The student record with its active flag cleared. -/
def inactiveStudentRec : User := { studentRec with is_active := false }

/-- A service state holding only the inactive student. -/
def stInactive : ServiceState :=
  { users := [inactiveStudentRec], tokens := [], activities := [] }

/-- C9 counterexample: login with the correct identity and password of
an inactive principal fails with the account-disabled message and issues
no token, but it surfaces as a serializer validation failure with HTTP
status 400 — not as an AuthenticationFailure, which the specification's
error taxonomy maps to status 401. -/
theorem c9_counterexample_login_inactive_is_validation_400 :
    login_post hashModel genKeyModel 50 stInactive "stu7" "pw" "1.2.3.4" "UA" =
      ({ statusCode := 400, message := "用户账户已被停用", token := none }, stInactive) ∧
    (400 : Nat) ≠ 401 :=
  ⟨rfl, by decide⟩

/-- C9 (amended): for every login request carrying the correct identity
and password of an inactive principal, the operation fails as a
serializer validation failure (HTTP 400, not a 401 authentication
failure) whose message indicates the account is disabled, and no token
is created or returned — the whole state is unchanged. -/
theorem c9_login_inactive_rejected_no_token (hash : String → String)
    (genKey : Nat → String) (now : Nat) (st : ServiceState)
    (uid pw ip ua : String) (u : User)
    (hfind : st.users.find? (fun v => v.userid == uid) = some u)
    (hpw : User.check_password hash u pw = true)
    (hinact : u.is_active = false)
    (huid : uid ≠ "") (hpw2 : pw ≠ "") :
    login_post hash genKey now st uid pw ip ua =
      ({ statusCode := 400, message := "用户账户已被停用", token := none }, st) := by
  have hv : login_validate hash st.users uid pw = .error "用户账户已被停用" := by
    unfold login_validate
    simp [huid, hpw2, hfind, hpw, hinact]
  unfold login_post
  rw [hv]

/-- C9 witness: the amended statement at the concrete inactive
student. -/
theorem c9_login_inactive_rejected_no_token_witness :
    login_post hashModel genKeyModel 60 stInactive "stu7" "pw" "9.9.9.9" "UA2" =
      ({ statusCode := 400, message := "用户账户已被停用", token := none }, stInactive) :=
  c9_login_inactive_rejected_no_token hashModel genKeyModel 60 stInactive
    "stu7" "pw" "9.9.9.9" "UA2" inactiveStudentRec rfl rfl rfl
    (by decide) (by decide)

/-- C2 counterexample: both halves of the claim fail on the code.  A
super admin issuing POST to `/users/42/activate/` (a path whose second
segment is a numeric id) is denied with RESOURCE_OWNERSHIP_REQUIRED —
administrators get no ownership bypass.  And a student issuing GET to
another user's detail path `/api/v1/users/42/` is allowed, not denied:
GET is a safe method for the ownership check and students hold
`user:read`, which is all the permission table requires there. -/
theorem c2_counterexample_admin_denied_student_get_allowed :
    processRequestWith (some superAdminRec) "/users/42/activate/" "POST" =
      .deny 403 "RESOURCE_OWNERSHIP_REQUIRED" ∧
    processRequestWith (some studentRec) "/api/v1/users/42/" "GET" = .allow := by
  exact ⟨by decide, by decide⟩

/-- C2 (amended): for every request with a non-safe method whose path
carries an extractable numeric resource id (second path segment), made
by an authenticated principal on a non-public path, where either the
path lacks the `/api/users/` marker the self-check requires or both the
principal's surrogate id and identity differ from the addressed id, the
middleware denies with RESOURCE_OWNERSHIP_REQUIRED whenever the request
reaches the ownership check (an auth-only path, or the permission check
passes) — with no administrator bypass: the statement holds for
every role. -/
theorem c2_nonsafe_resource_request_ownership_denied (u : User)
    (path method rid : String)
    (hm : (method == "GET" || method == "HEAD" || method == "OPTIONS") = false)
    (hid : extract_resource_id path = some rid)
    (hown : containsSub path "/api/users/" = false ∨
      ((toString u.id == rid) = false ∧ (u.userid == rid) = false))
    (hpub : is_public_path path = false)
    (hreach : is_auth_only_path path = true ∨
      check_user_permissions u (get_required_permissions path method) = true) :
    processRequestWith (some u) path method =
      .deny 403 "RESOURCE_OWNERSHIP_REQUIRED" := by
  have hco : check_resource_ownership u path method = false := by
    unfold check_resource_ownership
    rw [hm, hid]
    rcases hown with h | ⟨h1, h2⟩
    · simp [h]
    · simp [h1, h2]
  unfold processRequestWith
  rw [hpub]
  rcases hreach with h | h
  · simp [h, hco]
  · simp [h, hco]

/-- C2 witness: the amended statement at the concrete super admin and
the concrete non-safe request. -/
theorem c2_nonsafe_resource_request_ownership_denied_witness :
    processRequestWith (some superAdminRec) "/users/7/records/" "DELETE" =
      .deny 403 "RESOURCE_OWNERSHIP_REQUIRED" :=
  c2_nonsafe_resource_request_ownership_denied superAdminRec
    "/users/7/records/" "DELETE" "7"
    (by decide) (by decide) (Or.inl (by decide)) (by decide)
    (Or.inr (by decide))

/-- C10: `set_password` writes exactly the `passwd` column of the
stored row for the system root admin — every other column, including
`updated_at`, keeps its stored value — and exactly the `passwd` and
`updated_at` columns for every ordinary principal; rows with other ids
are untouched. -/
theorem c10_set_password_frame (hash : String → String) (now : Nat)
    (store : List User) (u : User) (raw : String)
    (hfind : store.find? (fun r => r.id == u.id) = some u) :
    User.set_password hash now store u raw =
      .ok (store.map (fun r => if r.id == u.id then
             (if u.is_system_root_admin then { r with passwd := hash raw }
              else { r with passwd := hash raw, updated_at := now }) else r),
           { u with passwd := hash raw }) := by
  have hmem : u ∈ store := List.mem_of_find?_eq_some hfind
  have hpred : (u.id == u.id) = true := by simp
  have hany : store.any (fun r => r.id == u.id) = true :=
    List.any_eq_true.mpr ⟨u, hmem, hpred⟩
  have hroot' : ({ u with passwd := hash raw } : User).is_system_root_admin
      = u.is_system_root_admin := rfl
  cases hroot : u.is_system_root_admin with
  | true =>
      have hconj : (u.is_system_admin = true ∧ u.id = 1) ∧ u.userid = "admin" := by
        unfold User.is_system_root_admin at hroot
        simpa [Bool.and_eq_true, beq_iff_eq] using hroot
      obtain ⟨⟨hsys, hid⟩, huid⟩ := hconj
      rw [hid] at hfind hany
      simp [User.set_password, User.save, User.is_system_root_admin, superSave,
        writeFields, Except.map, hsys, hid, huid, hfind, hany]
  | false =>
      simp [User.set_password, User.save, superSave, writeFields,
        Except.map, hroot', hroot, hany]

/-- C10 witness: setting the root admin's password touches only
`passwd` (the stored `updated_at` stays 0), while setting the ordinary
student's password touches `passwd` and `updated_at`. -/
theorem c10_set_password_frame_witness :
    User.set_password hashModel 100 [rootAdminRec] rootAdminRec "npw" =
      .ok ([{ rootAdminRec with passwd := "H:npw" }],
           { rootAdminRec with passwd := "H:npw" }) ∧
    User.set_password hashModel 100 [studentRec] studentRec "npw" =
      .ok ([{ studentRec with passwd := "H:npw", updated_at := 100 }],
           { studentRec with passwd := "H:npw" }) := by
  constructor
  · exact c10_set_password_frame hashModel 100 [rootAdminRec] rootAdminRec "npw" rfl
  · exact c10_set_password_frame hashModel 100 [studentRec] studentRec "npw" rfl

end UserService
